import Mathlib

/-!
Shallow embedding of the worker-process orchestrator (`WorkerManager` in
`src/services/WorkflowHistoryService.ts`).

The `WorkerManager` class keeps two pieces of mutable state: a `Map` from
worker id to `{info, process, pendingRequests}` and a `Set` of used ports.
We embed that state as `ManagerState` (association list keyed by worker id,
plus a list-as-set of ports).  Methods become pure functions
`ManagerState → ... → ManagerState × List Effect` where an `Effect` records
every externally visible action the method performs: messages sent to the
subprocess (`process.send`), `SIGKILL`, timer cancellation, `EventEmitter`
emissions, and invocations of pending-request continuations (promise
resolution/rejection).  Interactions with the outside world (spawn outcomes,
generated uuids, the clock, the business-layer request handlers) are passed
in as explicit environment parameters.
-/

namespace HorizonOrchestrator

/-- Opaque JSON-ish payload values carried by messages. -/
inductive Val
  | null
  | str (s : String)
  | nat (n : Nat)
  | bool (b : Bool)
deriving DecidableEq

/-- Embeds `WorkerInfo.status`: `'starting' | 'running' | 'stopping' | 'stopped' | 'error'`. -/
inductive WorkerStatus
  | starting
  | running
  | stopping
  | stopped
  | error
deriving DecidableEq

/-- Mirror of the `WorkerInfo` interface.  `Date` fields are embedded as `Nat`
timestamps supplied by the caller (`new Date()` becomes a `now` parameter). -/
structure WorkerInfo where
  id : String
  workflowId : String
  processId : Nat
  port : Nat
  status : WorkerStatus
  startTime : Nat
  lastActivity : Nat
  executionId : Option String := none
  version : Option String := none
  memoryUsage : Option Val := none
  cpuUsage : Option Val := none
deriving DecidableEq

/-- One entry of the `workers` map: the `info` record plus the
`pendingRequests` map.  The map's values are promise callbacks; their behavior
is fixed per request (see `pendingCallbackRun`), so the entry is embedded as
the list of registered request ids. -/
structure WorkerEntry where
  info : WorkerInfo
  pendingRequests : List String
deriving DecidableEq

/-- The mutable state of the `WorkerManager` singleton: the `workers` map
(association list keyed by worker id, `Map` insertion order preserved) and
the `usedPorts` set (list without duplicates). -/
structure ManagerState where
  workers : List (String × WorkerEntry)
  usedPorts : List Nat
deriving DecidableEq

/-- Messages the host sends to a worker subprocess via `process.send`. -/
inductive HostMsg
  | shutdown
  | request (route : String) (data : Val) (requestId : String)
  | response (requestId : String) (success : Bool) (data : Option Val) (message : Option String)
deriving DecidableEq

/-- Externally visible actions performed by the manager. -/
inductive Effect
  | send (workerId : String) (msg : HostMsg)
  | kill (workerId : String)
  | clearGraceTimer (workerId : String)
  | emitCreated (info : WorkerInfo)
  | emitReady (info : WorkerInfo)
  | emitStopped (info : WorkerInfo)
  | emitExit (workerId : String) (code : Option Int) (signal : Option String)
  | emitError (workerId : String) (message : String)
  | resolveOk (requestId : String) (v : Val)
  | resolveErr (requestId : String) (message : String)
deriving DecidableEq

/-- Typed failures thrown by the orchestrator (the source throws `Error`
objects with the quoted Spanish messages; see each constructor's comment). -/
inductive OrchError
  /-- Embeds `'No hay puertos disponibles para el worker'` -/
  | portExhausted
  /-- Embeds `'No se pudo encontrar un comando válido para ejecutar el worker'` -/
  | spawnExhausted
  /-- a spawn `'error'` event rejected as-is (e.g. `ENOENT` on the last candidate) -/
  | spawnFailed (msg : String)
  /-- Embeds `'Timeout al iniciar worker con ...'` -/
  | spawnTimeout
  /-- Embeds `'Worker ... no está disponible'` -/
  | workerNotRunning
deriving DecidableEq

/-! ### Association-list operations mirroring `Map`/`Set` -/

/-- Embeds `Map.get`: first binding for the key. -/
def findWorkerL : List (String × WorkerEntry) → String → Option WorkerEntry
  | [], _ => none
  | x :: xs, wid => if x.1 = wid then some x.2 else findWorkerL xs wid

/-- Embeds `Map.set`: replace the binding if present, append otherwise. -/
def setWorkerL : List (String × WorkerEntry) → String → WorkerEntry → List (String × WorkerEntry)
  | [], wid, e => [(wid, e)]
  | x :: xs, wid, e => if x.1 = wid then (wid, e) :: xs else x :: setWorkerL xs wid e

/-- Embeds `Map.delete` (keys are unique, so deleting the key drops every binding). -/
def removeWorkerL (ws : List (String × WorkerEntry)) (wid : String) :
    List (String × WorkerEntry) :=
  ws.filter fun x => decide (x.1 ≠ wid)

/-- In-place mutation of the entry behind a key (`worker.info.status = ...`,
`worker.pendingRequests.set/delete`). -/
def updateWorkerL (ws : List (String × WorkerEntry)) (wid : String)
    (f : WorkerEntry → WorkerEntry) : List (String × WorkerEntry) :=
  ws.map fun x => if x.1 = wid then (x.1, f x.2) else x

def findWorker (s : ManagerState) (wid : String) : Option WorkerEntry :=
  findWorkerL s.workers wid

def updateWorkerS (s : ManagerState) (wid : String) (f : WorkerEntry → WorkerEntry) :
    ManagerState :=
  { s with workers := updateWorkerL s.workers wid f }

/-- Embeds `Set.add` on `usedPorts`. -/
def insertPort (ps : List Nat) (p : Nat) : List Nat :=
  if p ∈ ps then ps else ps ++ [p]

/-- Embeds `Set.delete` on `usedPorts` (idempotent; deleting an absent port is a no-op). -/
def removePort (ps : List Nat) (p : Nat) : List Nat :=
  ps.filter fun q => decide (q ≠ p)

/-- Embeds `Map.set` on a `pendingRequests` map embedded as its list of keys. -/
def insertPending (l : List String) (rid : String) : List String :=
  if rid ∈ l then l else l ++ [rid]

/-- Embeds `Map.delete` on a `pendingRequests` map embedded as its list of keys. -/
def removePending (l : List String) (rid : String) : List String :=
  l.filter fun r => decide (r ≠ rid)

/-! ### Port allocator -/

/-- Embeds `private portRange = { start: 3001, end: 4000 }` -/
def portRangeStart : Nat := 3001

def portRangeEnd : Nat := 4000

/-- Embeds `getAvailablePort`: the loop `for (port = start; port <= end; port++)
if (!usedPorts.has(port)) return port; return null`. -/
def getAvailablePort (s : ManagerState) : Option Nat :=
  (List.range' portRangeStart (portRangeEnd - portRangeStart + 1)).find?
    fun p => !(s.usedPorts.contains p)

/-! ### Process spawner (`trySpawnWorker`)

Each spawn attempt races four outside-world outcomes: the `'spawn'` event
(the explicit confirmation that the OS process was created and is live), an
`'error'` event with `code === 'ENOENT'`, an `'error'` event with any other
code, and the 5-second startup timer firing while `workerProcess.pid` is
still unset.  `SpawnEnv` resolves that race per candidate index. -/

inductive SpawnOutcome
  /-- the `'spawn'` event fired; the process id is now available -/
  | confirmed (pid : Nat)
  /-- Embeds `'error'` with `error.code === 'ENOENT'` -/
  | enoent
  /-- Embeds `'error'` with any other code; message carried along -/
  | errOther (msg : String)
  /-- the 5000 ms timer fired with `workerProcess.pid` unset -/
  | timeout
deriving DecidableEq

abbrev SpawnEnv := Nat → SpawnOutcome

/-- A launch candidate: command plus argument list. -/
abbrev LaunchCmd := String × List String

/-- Embeds `path.join(process.cwd(), 'worker', 'index.ts')` (cwd-relative). -/
def workerPath : String := "worker/index.ts"

/-- Embeds `path.join(process.cwd(), 'dist', 'worker', 'index.js')` (cwd-relative). -/
def jsWorkerPath : String := "dist/worker/index.js"

/-- The ordered candidate list built at the top of `trySpawnWorker`. -/
def workerLaunchCommands (isWindows isDevelopment : Bool) : List LaunchCmd :=
  if isDevelopment then
    [ (if isWindows then "npx.cmd" else "npx", ["tsx", workerPath]),
      (if isWindows then "npx.cmd" else "npx", ["ts-node", workerPath]),
      ("tsx", [workerPath]),
      ("ts-node", [workerPath]) ]
  else
    [ ("node", [jsWorkerPath]) ]

/-- The recursion of `trySpawnWorker` over `retryCount`.  `retry` is the
current `retryCount` and `rest = commands.drop retry`, so `rest = []` is the
`retryCount >= commands.length` guard and `rest.tail = []` is the
`retryCount == commands.length - 1` case in which an `ENOENT` error is
rejected as-is instead of retrying.  The second component counts how many
times `spawn` was actually invoked. -/
def trySpawnGo (env : SpawnEnv) : Nat → List LaunchCmd → Except OrchError Nat × Nat
  | _, [] => (.error .spawnExhausted, 0)
  | retry, _c :: rest =>
    match env retry with
    | .confirmed pid => (.ok pid, 1)
    | .enoent =>
        if rest.isEmpty then
          -- last candidate: `reject(error)` with the ENOENT error itself
          (.error (.spawnFailed "ENOENT"), 1)
        else
          let r := trySpawnGo env (retry + 1) rest
          (r.1, r.2 + 1)
    | .errOther m => (.error (.spawnFailed m), 1)
    | .timeout => (.error .spawnTimeout, 1)

/-- Embeds `trySpawnWorker(workerId, workflowId, port)` with the default
`retryCount = 0`. -/
def trySpawnWorker (env : SpawnEnv) (cmds : List LaunchCmd) : Except OrchError Nat × Nat :=
  trySpawnGo env 0 cmds

deriving instance DecidableEq for Except

/-! ### createWorker

`createWorker` is an `async` method.  Its body splits at the single `await`
(`await this.spawnWorkerProcess(...)`): everything before the `await` is
`createWorkerReserve`, everything in the success path after it is
`createWorkerCommit`.  `createWorker` composes the two for a run during which
no other manager activity interleaves; the phases themselves are used to
analyse what happens when two calls overlap across the `await`. -/

/-- Embeds `createWorker(options)` argument record. -/
structure CreateOptions where
  workflowId : String
  executionId : Option String := none
  version : Option String := none

/-- Lines up to the `await`: generate the id (passed in as `wid`, standing
for `uuidv4()`), call `getAvailablePort`, throw `portExhausted` on `null`,
and build the `workerInfo` literal with `status: 'starting'`.

Note the signature: this phase does **not** modify `ManagerState`.
`getAvailablePort` only reads `usedPorts`; the port is added to `usedPorts`
only in the commit phase after the `await`. -/
def createWorkerReserve (s : ManagerState) (wid : String) (opts : CreateOptions)
    (now : Nat) : Except OrchError WorkerInfo :=
  match getAvailablePort s with
  | none => .error .portExhausted
  | some port =>
      .ok { id := wid, workflowId := opts.workflowId, processId := 0, port := port,
            status := .starting, startTime := now, lastActivity := now,
            executionId := opts.executionId, version := opts.version }

/-- Success path after the `await`: set `processId` from the spawned pid,
set `status = 'running'`, register the entry with an empty `pendingRequests`
map, add the port to `usedPorts`, and emit `worker:created`. -/
def createWorkerCommit (s : ManagerState) (info : WorkerInfo) (pid : Nat) :
    ManagerState × List Effect × WorkerInfo :=
  let info2 := { info with processId := pid, status := WorkerStatus.running }
  ({ workers := setWorkerL s.workers info.id { info := info2, pendingRequests := [] },
     usedPorts := insertPort s.usedPorts info.port },
   [Effect.emitCreated info2], info2)

/-- A full `createWorker` call with no interleaving: reserve, spawn, commit.
On a spawn failure the `catch` block runs `usedPorts.delete(port)` (a no-op,
the port was never added) and rethrows the error. -/
def createWorker (s : ManagerState) (wid : String) (opts : CreateOptions)
    (cmds : List LaunchCmd) (env : SpawnEnv) (now : Nat) :
    Except OrchError (ManagerState × List Effect × WorkerInfo) :=
  match createWorkerReserve s wid opts now with
  | .error e => .error e
  | .ok info =>
      match (trySpawnWorker env cmds).1 with
      | .ok pid => .ok (createWorkerCommit s info pid)
      | .error e => .error e

/-! ### Finalization (`cleanupWorker`, `handleWorkerExit`) -/

/-- Embeds `cleanupWorker(workerId)`: if the worker is registered, delete its port
from `usedPorts`, set `worker.info.status = 'stopped'`, invoke every pending
request callback with `{success: false, message: 'Worker stopped'}`, clear
the pending map, and delete the registry entry.  The third component is the
finalized info record (the `worker.info` object mutated to `'stopped'`,
still referenced by closures such as the one in `stopWorker`); it is `none`
when the worker was already cleaned up. -/
def cleanupWorker (s : ManagerState) (wid : String) :
    ManagerState × List Effect × Option WorkerInfo :=
  match findWorker s wid with
  | none => (s, [], none)
  | some w =>
      ({ workers := removeWorkerL s.workers wid,
         usedPorts := removePort s.usedPorts w.info.port },
       w.pendingRequests.map fun rid => Effect.resolveErr rid "Worker stopped",
       some { w.info with status := WorkerStatus.stopped })

/-- The `'exit'` listener registered in `spawnWorkerProcess`:
`cleanupWorker` followed by an unconditional `worker:exit` emission. -/
def handleWorkerExit (s : ManagerState) (wid : String) (code : Option Int)
    (signal : Option String) : ManagerState × List Effect :=
  let r := cleanupWorker s wid
  (r.1, r.2.1 ++ [Effect.emitExit wid code signal])

/-! ### stopWorker

`stopWorker` is async; it suspends at the `await` on the promise that settles
when either the subprocess's `'exit'` event fires (grace case) or the 5000 ms
timer fires and `SIGKILL` is sent (forced case).  `stopWorkerBegin` is the
code before the suspension, `stopWorkerFinish` the code after it;
`stopWorkerRun` is a full non-overlapping call, sequenced with the process's
own `'exit'` listener (`handleWorkerExit`), which fires before the promise
callback in the grace case and after `SIGKILL` in the forced case. -/

/-- Code before the suspension point: registry lookup (`return false` when
absent), `worker.info.status = 'stopping'`, and
`worker.process.send({type: 'shutdown'})`.  The boolean records whether the
call proceeds (and will therefore return `true` after the wait). -/
def stopWorkerBegin (s : ManagerState) (wid : String) : ManagerState × List Effect × Bool :=
  match findWorker s wid with
  | none => (s, [], false)
  | some _ =>
      (updateWorkerS s wid fun e =>
         { e with info := { e.info with status := WorkerStatus.stopping } },
       [Effect.send wid HostMsg.shutdown], true)

/-- Resumption after the wait: in the grace case the `'exit'` listener of the
promise ran `clearTimeout`; in the forced case the timer ran
`process.kill('SIGKILL')`.  Then `cleanupWorker(workerId)` and
`emit('worker:stopped', worker.info)` — `worker.info` being the closure's
alias of the info record, whose `status` was set to `'stopped'` by whichever
`cleanupWorker` invocation ran first.  Returns `true`. -/
def stopWorkerFinish (s : ManagerState) (wid : String) (graceful : Bool)
    (capturedInfo : WorkerInfo) : ManagerState × List Effect × Bool :=
  let pre : List Effect :=
    if graceful then [Effect.clearGraceTimer wid] else [Effect.kill wid]
  let r := cleanupWorker s wid
  (r.1, pre ++ r.2.1 ++ [Effect.emitStopped { capturedInfo with status := WorkerStatus.stopped }],
   true)

/-- A full `stopWorker(workerId)` call with no other calls interleaved.
`graceful = true`: the subprocess exits within the grace window, so the
process-level `'exit'` listener (`handleWorkerExit`) fires first, then the
promise resolves and the rest of `stopWorker` runs.  `graceful = false`: the
timer fires first (`SIGKILL`, promise resolves, rest of `stopWorker` runs),
and the killed subprocess's `'exit'` event follows. -/
def stopWorkerRun (s : ManagerState) (wid : String) (graceful : Bool)
    (code : Option Int) (signal : Option String) : ManagerState × List Effect × Bool :=
  match findWorker s wid with
  | none => (s, [], false)
  | some w =>
      let s1 := updateWorkerS s wid fun e =>
        { e with info := { e.info with status := WorkerStatus.stopping } }
      let e1 : List Effect := [Effect.send wid HostMsg.shutdown]
      if graceful then
        let r2 := handleWorkerExit s1 wid code signal
        let r3 := stopWorkerFinish r2.1 wid true w.info
        (r3.1, e1 ++ r2.2 ++ r3.2.1, true)
      else
        let r2 := stopWorkerFinish s1 wid false w.info
        let r3 := handleWorkerExit r2.1 wid code signal
        (r3.1, e1 ++ r2.2.1 ++ r3.2, true)

/-! ### Request correlation (`sendRequestToWorker` and friends) -/

/-- The 30 000 ms timeout passed to `setTimeout` in `sendRequestToWorker`. -/
def requestTimeoutMs : Nat := 30000

/-- Embeds `sendRequestToWorker(workerId, route, data)` up to the point where the
promise is pending: throws `'Worker ... no está disponible'` unless the
worker exists and is `'running'`; otherwise generates `requestId` (passed in
as `rid`, standing for `uuidv4()`), registers the pending callback, sends
`{type: 'request', route, data, requestId}` and updates `lastActivity`.
In the error case nothing is generated, registered, or sent. -/
def sendRequestToWorker (s : ManagerState) (wid route : String) (data : Val)
    (rid : String) (now : Nat) : Except OrchError (ManagerState × List Effect) :=
  match findWorker s wid with
  | none => .error .workerNotRunning
  | some w =>
      if w.info.status = WorkerStatus.running then
        .ok (updateWorkerS s wid fun e =>
               { e with pendingRequests := insertPending e.pendingRequests rid,
                        info := { e.info with lastActivity := now } },
             [Effect.send wid (HostMsg.request route data rid)])
      else .error .workerNotRunning

/-- The 30 s timer body: `pendingRequests.delete(requestId)` and
`reject(new Error('Timeout en la solicitud al worker'))`.  The timer is live
exactly when the pending entry still exists — every path that removes the
entry (matching response, cleanup) first runs the stored callback, which
calls `clearTimeout` — so firing is guarded by membership. -/
def fireRequestTimeout (s : ManagerState) (wid rid : String) : ManagerState × List Effect :=
  match findWorker s wid with
  | none => (s, [])
  | some w =>
      if rid ∈ w.pendingRequests then
        (updateWorkerS s wid fun e =>
           { e with pendingRequests := removePending e.pendingRequests rid },
         [Effect.resolveErr rid "Timeout en la solicitud al worker"])
      else (s, [])

/-! ### Worker-originated requests (`handleWorkerRequest`) -/

/-- The response records produced by the `handleXRequest` helpers:
`{success, data?, message?}`. -/
structure HandlerResp where
  success : Bool
  data : Option Val := none
  message : Option String := none
deriving DecidableEq

/-- A business-layer handler either returns a response record or throws. -/
inductive HandlerOutcome
  | ok (r : HandlerResp)
  | throws (msg : String)
deriving DecidableEq

/-- The twelve route handlers called from the `switch` in
`handleWorkerRequest`.  Each one consults external collaborators (node
store, ORM models, the file system, ...), so each is an environment
function from the request payload to an outcome. -/
structure HandlerEnv where
  nodesList : Val → HandlerOutcome
  nodesGet : Val → HandlerOutcome
  workflowsGet : Val → HandlerOutcome
  systemHealth : Val → HandlerOutcome
  workerLog : Val → HandlerOutcome
  workerProgress : Val → HandlerOutcome
  workerMetrics : Val → HandlerOutcome
  databaseOperation : Val → HandlerOutcome
  externalApi : Val → HandlerOutcome
  fileOperation : Val → HandlerOutcome
  credentialsGet : Val → HandlerOutcome
  environmentGet : Val → HandlerOutcome

/-- Embeds `routeToSocketHandler(route, data)`: always
`{success: false, message: 'Ruta ... no implementada'}`. -/
def routeToSocketHandler (route : String) (_data : Val) : HandlerResp :=
  { success := false, message := some ("Ruta " ++ route ++ " no implementada") }

/-- The route strings with a `case` in the `switch` of `handleWorkerRequest`. -/
def knownRoutes : List String :=
  ["nodes:list", "nodes:get", "workflows:get", "system:health", "worker:log",
   "worker:progress", "worker:metrics", "database:operation", "external:api",
   "file:operation", "credentials:get", "environment:get"]

/-- The `switch (route)` of `handleWorkerRequest`: dispatch to the matching
handler, falling through to `routeToSocketHandler` on the `default` case. -/
def dispatchRoute (env : HandlerEnv) (route : String) (data : Val) : HandlerOutcome :=
  if route = "nodes:list" then env.nodesList data
  else if route = "nodes:get" then env.nodesGet data
  else if route = "workflows:get" then env.workflowsGet data
  else if route = "system:health" then env.systemHealth data
  else if route = "worker:log" then env.workerLog data
  else if route = "worker:progress" then env.workerProgress data
  else if route = "worker:metrics" then env.workerMetrics data
  else if route = "database:operation" then env.databaseOperation data
  else if route = "external:api" then env.externalApi data
  else if route = "file:operation" then env.fileOperation data
  else if route = "credentials:get" then env.credentialsGet data
  else if route = "environment:get" then env.environmentGet data
  else HandlerOutcome.ok (routeToSocketHandler route data)

/-- Embeds `handleWorkerRequest(workerId, route, data, requestId)`: if the worker is
registered, run the dispatched handler and send exactly one
`{type: 'response', requestId, success, data, message}` back; an exception
is caught and converted into a `success: false` response carrying
`error.message`.  (`data: response.data || response` — the fallback to the
whole record when `data` is absent is represented by `none`.) -/
def handleWorkerRequest (env : HandlerEnv) (s : ManagerState) (wid route : String)
    (data : Val) (rid : String) (now : Nat) : ManagerState × List Effect :=
  match findWorker s wid with
  | none => (s, [])
  | some _ =>
      match dispatchRoute env route data with
      | .ok resp =>
          (updateWorkerS s wid fun e => { e with info := { e.info with lastActivity := now } },
           [Effect.send wid (HostMsg.response rid resp.success resp.data resp.message)])
      | .throws msg =>
          (s, [Effect.send wid (HostMsg.response rid false none (some msg))])

/-! ### Inbound message handling -/

/-- Embeds `updateWorkerStats(workerId, stats)`: merge whichever of
`memoryUsage`/`cpuUsage` are present and touch `lastActivity`; silently does
nothing when the worker is unknown. -/
def updateWorkerStats (s : ManagerState) (wid : String) (mem cpu : Option Val)
    (now : Nat) : ManagerState :=
  match findWorker s wid with
  | none => s
  | some _ =>
      updateWorkerS s wid fun e =>
        { e with info :=
            { e.info with
                memoryUsage := match mem with | some v => some v | none => e.info.memoryUsage,
                cpuUsage := match cpu with | some v => some v | none => e.info.cpuUsage,
                lastActivity := now } }

/-- Embeds `handleWorkerError(workerId, error)`: mark the worker `'error'` and emit
`worker:error` (the worker is not removed here). -/
def handleWorkerError (s : ManagerState) (wid : String) (msg : String) :
    ManagerState × List Effect :=
  match findWorker s wid with
  | none => (s, [])
  | some _ =>
      (updateWorkerS s wid fun e =>
         { e with info := { e.info with status := WorkerStatus.error } },
       [Effect.emitError wid msg])

/-- Mirror of the `WorkerMessage` records arriving over the IPC channel:
`{type, data?, requestId?}`.  `route`/`payload` stand for `data?.route` and
`data?.data` of request messages; `success`/`message` are the fields the
pending-request callback reads off response messages;
`memoryUsage`/`cpuUsage` are the fields `stats` payloads carry. -/
structure WorkerMessage where
  type : String
  requestId : Option String := none
  route : Option String := none
  payload : Val := Val.null
  success : Bool := false
  message : Option String := none
  memoryUsage : Option Val := none
  cpuUsage : Option Val := none
deriving DecidableEq

/-- The callback stored by `sendRequestToWorker`, applied to a matching
response message: `clearTimeout` (implicit: the pending entry is removed by
the caller), then `resolve(response.data)` when `response.success`, else
`reject(new Error(response.message || 'Error en la solicitud al worker'))`. -/
def pendingCallbackRun (rid : String) (m : WorkerMessage) : Effect :=
  if m.success then Effect.resolveOk rid m.payload
  else Effect.resolveErr rid (m.message.getD "Error en la solicitud al worker")

/-- Embeds `handleWorkerMessage(workerId, message)`: the `switch (message.type)`.
An unregistered worker is ignored.  Request messages (with a `requestId`)
are forwarded to `handleWorkerRequest`; response messages fire the matching
pending callback — if any — exactly once and delete the entry; `stats`,
`ready` and `error` messages update stats, mark the worker running
(emitting `worker:ready`), or mark it failed. -/
def handleWorkerMessage (env : HandlerEnv) (s : ManagerState) (wid : String)
    (m : WorkerMessage) (now : Nat) : ManagerState × List Effect :=
  match findWorker s wid with
  | none => (s, [])
  | some w =>
      if m.type = "request" then
        match m.requestId with
        | some rid => handleWorkerRequest env s wid (m.route.getD "") m.payload rid now
        | none => (s, [])
      else if m.type = "response" then
        match m.requestId with
        | some rid =>
            if rid ∈ w.pendingRequests then
              (updateWorkerS s wid fun e =>
                 { e with pendingRequests := removePending e.pendingRequests rid },
               [pendingCallbackRun rid m])
            else (s, [])
        | none => (s, [])
      else if m.type = "stats" then
        (updateWorkerStats s wid m.memoryUsage m.cpuUsage now, [])
      else if m.type = "ready" then
        (updateWorkerS s wid fun e =>
           { e with info := { e.info with status := WorkerStatus.running } },
         [Effect.emitReady { w.info with status := WorkerStatus.running }])
      else if m.type = "error" then
        handleWorkerError s wid (m.message.getD "Worker error")
      else (s, [])

/-- Embeds `getActiveWorkers()`. -/
def getActiveWorkers (s : ManagerState) : List WorkerInfo :=
  s.workers.map fun x => x.2.info

/-- Embeds `getWorkersByWorkflow(workflowId)`. -/
def getWorkersByWorkflow (s : ManagerState) (workflowId : String) : List WorkerInfo :=
  (s.workers.filter fun x => decide (x.2.info.workflowId = workflowId)).map fun x => x.2.info

/-! ### Basic lemmas about the map/set operations -/

lemma findWorkerL_update (ws : List (String × WorkerEntry)) (wid : String)
    (f : WorkerEntry → WorkerEntry) :
    findWorkerL (updateWorkerL ws wid f) wid = (findWorkerL ws wid).map f := by
  induction ws with
  | nil => simp [findWorkerL, updateWorkerL]
  | cons x xs ih =>
      simp only [updateWorkerL, List.map_cons] at ih ⊢
      by_cases hx : x.1 = wid
      · simp [findWorkerL, hx]
      · simpa [findWorkerL, hx] using ih

lemma findWorkerL_remove (ws : List (String × WorkerEntry)) (wid : String) :
    findWorkerL (removeWorkerL ws wid) wid = none := by
  induction ws with
  | nil => simp [findWorkerL, removeWorkerL]
  | cons x xs ih =>
      simp only [removeWorkerL, List.filter_cons] at ih ⊢
      by_cases hx : x.1 = wid
      · simpa [hx] using ih
      · simpa [findWorkerL, hx] using ih

lemma findWorkerL_set (ws : List (String × WorkerEntry)) (wid : String) (e : WorkerEntry) :
    findWorkerL (setWorkerL ws wid e) wid = some e := by
  induction ws with
  | nil => simp [setWorkerL, findWorkerL]
  | cons x xs ih =>
      by_cases hx : x.1 = wid
      · simp [setWorkerL, hx, findWorkerL]
      · simp [setWorkerL, hx, findWorkerL, ih]

lemma findWorker_updateS (s : ManagerState) (wid : String) (f : WorkerEntry → WorkerEntry) :
    findWorker (updateWorkerS s wid f) wid = (findWorker s wid).map f :=
  findWorkerL_update s.workers wid f

lemma cleanupWorker_of_not_found {s : ManagerState} {wid : String}
    (h : findWorker s wid = none) : cleanupWorker s wid = (s, [], none) := by
  simp [cleanupWorker, h]

lemma findWorker_cleanup_self (s : ManagerState) (wid : String) :
    findWorker (cleanupWorker s wid).1 wid = none := by
  cases h : findWorker s wid with
  | none => simp [cleanupWorker, h]
  | some w => simpa [cleanupWorker, h] using findWorkerL_remove s.workers wid

lemma mem_insertPending (l : List String) (rid : String) : rid ∈ insertPending l rid := by
  by_cases h : rid ∈ l <;> simp [insertPending, h]

lemma not_mem_removePending (l : List String) (rid : String) : rid ∉ removePending l rid := by
  simp [removePending, List.mem_filter]

/-! ## Claims -/

/-- Claim C10 — `cleanupWorker` is idempotent: invoking it on a worker id that
is absent from the registry (in particular, after the worker has already
been cleaned up) leaves the worker table, the used-port set and the pending
requests unchanged and performs no effect; hence port release,
pending-request rejection and registry removal take effect at most once even
though both the `stopWorker` path and the subprocess `'exit'` handler invoke
cleanup for the same worker. -/
theorem cleanupWorker_idempotent (s : ManagerState) (wid : String) :
    (findWorker s wid = none → cleanupWorker s wid = (s, [], none)) ∧
    cleanupWorker (cleanupWorker s wid).1 wid = ((cleanupWorker s wid).1, [], none) :=
  ⟨fun h => cleanupWorker_of_not_found h,
   cleanupWorker_of_not_found (findWorker_cleanup_self s wid)⟩

/-- Concrete worker info used by the witnesses. -/
def infoA : WorkerInfo :=
  { id := "w1", workflowId := "wf", processId := 7, port := 3001,
    status := WorkerStatus.running, startTime := 0, lastActivity := 0 }

/-- A state holding the single running worker `"w1"` with two pending requests. -/
def stateA : ManagerState :=
  { workers := [("w1", { info := infoA, pendingRequests := ["r1", "r2"] })],
    usedPorts := [3001] }

/-- Witness for C10 at a concrete state: cleaning up `"w1"` twice, and
cleaning up an id that was never registered. -/
theorem cleanupWorker_idempotent_witness :
    cleanupWorker (cleanupWorker stateA "w1").1 "w1"
      = ((cleanupWorker stateA "w1").1, [], none) ∧
    cleanupWorker stateA "zzz" = (stateA, [], none) :=
  ⟨(cleanupWorker_idempotent stateA "w1").2,
   (cleanupWorker_idempotent stateA "zzz").1 (by decide)⟩

/-- Claim C3 — finalization via the subprocess `'exit'` handler: for a
registered worker with any set of pending requests, `handleWorkerExit`
releases the worker's port from the used-port set, invokes every outstanding
pending-request continuation with the `'Worker stopped'` failure result,
removes the worker's registry entry, publishes the `worker:exit` event, and
a subsequent finalization attempt is a no-op (finalization happens exactly
once). -/
theorem handleWorkerExit_finalizes (s : ManagerState) (wid : String)
    (code : Option Int) (signal : Option String) (w : WorkerEntry)
    (h : findWorker s wid = some w) :
    (handleWorkerExit s wid code signal).1.usedPorts = removePort s.usedPorts w.info.port ∧
    (∀ rid ∈ w.pendingRequests,
        Effect.resolveErr rid "Worker stopped" ∈ (handleWorkerExit s wid code signal).2) ∧
    findWorker (handleWorkerExit s wid code signal).1 wid = none ∧
    Effect.emitExit wid code signal ∈ (handleWorkerExit s wid code signal).2 ∧
    cleanupWorker (handleWorkerExit s wid code signal).1 wid
      = ((handleWorkerExit s wid code signal).1, [], none) := by
  have hr : handleWorkerExit s wid code signal
      = ({ workers := removeWorkerL s.workers wid,
           usedPorts := removePort s.usedPorts w.info.port },
         (w.pendingRequests.map fun rid => Effect.resolveErr rid "Worker stopped")
           ++ [Effect.emitExit wid code signal]) := by
    simp [handleWorkerExit, cleanupWorker, h]
  rw [hr]
  refine ⟨rfl, ?_, ?_, ?_, ?_⟩
  · intro rid hrid
    exact List.mem_append.mpr (Or.inl (List.mem_map.mpr ⟨rid, hrid, rfl⟩))
  · exact findWorkerL_remove s.workers wid
  · exact List.mem_append.mpr (Or.inr (by simp))
  · exact cleanupWorker_of_not_found (findWorkerL_remove s.workers wid)

/-- Witness for C3: finalizing `"w1"` in `stateA` removes it from the
registry and fails its pending request `"r1"` with `'Worker stopped'`. -/
theorem handleWorkerExit_finalizes_witness :
    findWorker (handleWorkerExit stateA "w1" (some 0) none).1 "w1" = none ∧
    Effect.resolveErr "r1" "Worker stopped"
      ∈ (handleWorkerExit stateA "w1" (some 0) none).2 := by
  have h := handleWorkerExit_finalizes stateA "w1" (some 0) none
    { info := infoA, pendingRequests := ["r1", "r2"] } (by decide)
  exact ⟨h.2.2.1, h.2.1 "r1" (by decide)⟩

/-- Claim C9 — `sendRequestToWorker` on a worker id that is absent from the
registry or whose state is not `'running'` fails immediately with the
`WorkerNotRunning` error (`'Worker ... no está disponible'`); the error
branch is taken before the promise executor runs, so no request id is
generated, no pending entry is registered, and nothing is transmitted (the
returned value carries no state change and no effect). -/
theorem sendRequest_worker_not_running (s : ManagerState) (wid route : String)
    (data : Val) (rid : String) (now : Nat)
    (h : (findWorker s wid).map (fun w => w.info.status) ≠ some WorkerStatus.running) :
    sendRequestToWorker s wid route data rid now = .error .workerNotRunning := by
  cases hf : findWorker s wid with
  | none => simp [sendRequestToWorker, hf]
  | some w =>
      have hs : ¬ w.info.status = WorkerStatus.running := by
        intro he
        exact h (by simp [hf, he])
      simp [sendRequestToWorker, hf, hs]

/-- A state holding the single worker `"w2"` still in `'starting'` state. -/
def stateB : ManagerState :=
  { workers := [("w2", { info := { infoA with id := "w2", status := WorkerStatus.starting },
                          pendingRequests := [] })],
    usedPorts := [3001] }

/-- Witness for C9: a `'starting'` worker and an unregistered id both fail
with `WorkerNotRunning`. -/
theorem sendRequest_worker_not_running_witness :
    sendRequestToWorker stateB "w2" "system:health" Val.null "r1" 5
      = .error .workerNotRunning ∧
    sendRequestToWorker stateB "absent" "system:health" Val.null "r1" 5
      = .error .workerNotRunning :=
  ⟨sendRequest_worker_not_running stateB "w2" "system:health" Val.null "r1" 5 (by decide),
   sendRequest_worker_not_running stateB "absent" "system:health" Val.null "r1" 5 (by decide)⟩

/-- If the spawn loop returns a pid, some candidate's attempt produced the
explicit `'spawn'` confirmation event with that pid. -/
lemma trySpawnGo_ok_confirmed (env : SpawnEnv) :
    ∀ (rest : List LaunchCmd) (retry pid n : Nat),
      trySpawnGo env retry rest = (.ok pid, n) →
      ∃ k, retry ≤ k ∧ k < retry + rest.length ∧ env k = .confirmed pid := by
  intro rest
  induction rest with
  | nil =>
      intro retry pid n h
      simp [trySpawnGo] at h
  | cons c rest ih =>
      intro retry pid n h
      cases he : env retry with
      | confirmed p =>
          simp [trySpawnGo, he] at h
          exact ⟨retry, Nat.le_refl _, by simp only [List.length_cons]; omega,
                 by rw [he, h.1]⟩
      | enoent =>
          by_cases hr : rest = []
          · subst hr; simp [trySpawnGo, he] at h
          · have hriE : rest.isEmpty = false := by
              cases rest with
              | nil => exact absurd rfl hr
              | cons d rest2 => rfl
            simp only [trySpawnGo, he, hriE, Bool.false_eq_true, if_false,
              Prod.mk.injEq] at h
            obtain ⟨k, hk0, hk1, hk2⟩ := ih (retry + 1) pid
              (trySpawnGo env (retry + 1) rest).2 (by rw [← h.1])
            exact ⟨k, by omega, by simp only [List.length_cons]; omega, hk2⟩
      | errOther m =>
          simp [trySpawnGo, he] at h
      | timeout =>
          simp [trySpawnGo, he] at h

/-- Claim C1 — `createWorker` resolves successfully only once the worker has
reached `'running'`: whenever a call returns a `WorkerInfo`, that info (and
the registered entry) has status `'running'`, and some launch candidate's
attempt was confirmed by the explicit `'spawn'` confirmation event carrying
the returned process id — OS-level `spawn()` invocations that never fire the
confirmation event (`enoent`, other errors, the 5 s startup timeout) can
never lead to a successful resolution. -/
theorem createWorker_confirmed_running (s : ManagerState) (wid : String)
    (opts : CreateOptions) (cmds : List LaunchCmd) (env : SpawnEnv) (now : Nat)
    (S : ManagerState) (effs : List Effect) (info : WorkerInfo)
    (h : createWorker s wid opts cmds env now = .ok (S, effs, info)) :
    info.status = WorkerStatus.running ∧
    (∃ k, k < cmds.length ∧ env k = .confirmed info.processId) ∧
    findWorker S wid = some { info := info, pendingRequests := [] } := by
  unfold createWorker createWorkerReserve at h
  cases hp : getAvailablePort s with
  | none => rw [hp] at h; exact absurd h (by simp)
  | some port =>
      rw [hp] at h
      cases hsp : (trySpawnWorker env cmds).1 with
      | error e => rw [hsp] at h; exact absurd h (by simp)
      | ok pid =>
          rw [hsp] at h
          simp only [Except.ok.injEq, createWorkerCommit, Prod.mk.injEq] at h
          obtain ⟨k, hk0, hk1, hk2⟩ := trySpawnGo_ok_confirmed env cmds 0 pid
            (trySpawnWorker env cmds).2 (by rw [← hsp]; rfl)
          obtain ⟨rfl, rfl, rfl⟩ := h
          refine ⟨rfl, ⟨k, by omega, by simpa using hk2⟩, ?_⟩
          simpa [findWorker] using findWorkerL_set s.workers wid _

/-- Spawn environment for the C1 witness: every attempt is confirmed with pid 42. -/
def envConfirm : SpawnEnv := fun _ => SpawnOutcome.confirmed 42

/-- The info record produced by the C1 witness run. -/
def infoC1 : WorkerInfo :=
  { id := "w9", workflowId := "wf", processId := 42, port := 3001,
    status := WorkerStatus.running, startTime := 3, lastActivity := 3 }

/-- Witness for C1: a concrete successful `createWorker` run, with the
status/confirmation facts obtained from the theorem. -/
theorem createWorker_confirmed_running_witness :
    createWorker { workers := [], usedPorts := [] } "w9" { workflowId := "wf" }
        (workerLaunchCommands false true) envConfirm 3
      = .ok ({ workers := [("w9", { info := infoC1, pendingRequests := [] })],
               usedPorts := [3001] },
             [Effect.emitCreated infoC1], infoC1) ∧
    infoC1.status = WorkerStatus.running ∧
    (∃ k, k < (workerLaunchCommands false true).length ∧
        envConfirm k = .confirmed infoC1.processId) := by
  have h : createWorker { workers := [], usedPorts := [] } "w9" { workflowId := "wf" }
      (workerLaunchCommands false true) envConfirm 3
      = .ok ({ workers := [("w9", { info := infoC1, pendingRequests := [] })],
               usedPorts := [3001] },
             [Effect.emitCreated infoC1], infoC1) := by decide
  have hc := createWorker_confirmed_running _ "w9" _ _ envConfirm 3 _ _ _ h
  exact ⟨h, hc.1, hc.2.1⟩

/-- When every candidate's attempt reports `ENOENT`, the spawn loop advances
through the remaining candidates in order and fails only after attempting
every one of them. -/
lemma trySpawnGo_all_enoent (env : SpawnEnv) :
    ∀ (rest : List LaunchCmd) (retry : Nat),
      rest ≠ [] →
      (∀ i, retry ≤ i → i < retry + rest.length → env i = .enoent) →
      trySpawnGo env retry rest = (.error (.spawnFailed "ENOENT"), rest.length) := by
  intro rest
  induction rest with
  | nil =>
      intro retry h
      exact absurd rfl h
  | cons c rest ih =>
      intro retry _ henv
      have he : env retry = .enoent :=
        henv retry (Nat.le_refl _) (by simp only [List.length_cons]; omega)
      by_cases hr : rest = []
      · subst hr; simp [trySpawnGo, he]
      · have hriE : rest.isEmpty = false := by
          cases rest with
          | nil => exact absurd rfl hr
          | cons d rest2 => rfl
        have ihr := ih (retry + 1) hr
          (fun i h1 h2 => henv i (by omega) (by simp only [List.length_cons] at h2 ⊢; omega))
        simp [trySpawnGo, he, hriE, ihr]

/-- Claim C5, amended — when every one of the `N` ordered launch candidates
fails with an executable-not-found error, the spawner advances through them
in order and surfaces the failure only after exactly `N` spawn attempts
(never earlier); but a startup timeout on the first candidate is surfaced
immediately, after a single attempt, without trying the remaining
candidates. -/
theorem trySpawn_failure_after_all_candidates (env : SpawnEnv) (cmds : List LaunchCmd)
    (hne : cmds ≠ []) :
    ((∀ i, i < cmds.length → env i = .enoent) →
        trySpawnWorker env cmds = (.error (.spawnFailed "ENOENT"), cmds.length)) ∧
    (env 0 = .timeout → trySpawnWorker env cmds = (.error .spawnTimeout, 1)) := by
  constructor
  · intro henv
    exact trySpawnGo_all_enoent env cmds 0 hne (fun i _ h2 => henv i (by omega))
  · intro ht
    cases cmds with
    | nil => exact absurd rfl hne
    | cons c rest => simp [trySpawnWorker, trySpawnGo, ht]

/-- Counterexample to C5 as stated: with the four development launch
candidates, a startup timeout on the very first candidate is surfaced after
a single spawn attempt — not only "after all options fail". -/
theorem spawnTimeout_surfaces_before_exhaustion :
    (workerLaunchCommands false true).length = 4 ∧
    trySpawnWorker (fun _ => SpawnOutcome.timeout) (workerLaunchCommands false true)
      = (.error .spawnTimeout, 1) ∧
    (trySpawnWorker (fun _ => SpawnOutcome.timeout) (workerLaunchCommands false true)).2
      ≠ (workerLaunchCommands false true).length :=
  ⟨by decide, by decide, by decide⟩

/-- Witness for the amended C5, at the four development candidates
(all-ENOENT environment) and the single production candidate (timeout
environment). -/
theorem trySpawn_failure_after_all_candidates_witness :
    trySpawnWorker (fun _ => SpawnOutcome.enoent) (workerLaunchCommands false true)
      = (.error (.spawnFailed "ENOENT"), (workerLaunchCommands false true).length) ∧
    trySpawnWorker (fun _ => SpawnOutcome.timeout) (workerLaunchCommands false false)
      = (.error .spawnTimeout, 1) :=
  ⟨(trySpawn_failure_after_all_candidates (fun _ => SpawnOutcome.enoent)
      (workerLaunchCommands false true) (by decide)).1 (fun i _ => rfl),
   (trySpawn_failure_after_all_candidates (fun _ => SpawnOutcome.timeout)
      (workerLaunchCommands false false) (by decide)).2 rfl⟩

/-! ### C2: the port-uniqueness race -/

/-- The empty manager state (`workers = new Map()`, `usedPorts = new Set()`). -/
def initialState : ManagerState := { workers := [], usedPorts := [] }

/-- Two `createWorker` calls overlapping across the `await` of
`spawnWorkerProcess`: call A runs its reserve phase, suspends at the
`await`; call B then runs its reserve phase — on the state as call A left
it, which is `initialState` unchanged, because the reserve phase reads
`getAvailablePort()` without recording the reservation (`usedPorts.add`
only happens after the `await`).  Both spawns then confirm and both commit
phases run. -/
def overlappingCreates : ManagerState :=
  match createWorkerReserve initialState "A" { workflowId := "wfA" } 0,
        createWorkerReserve initialState "B" { workflowId := "wfB" } 0 with
  | .ok ia, .ok ib =>
      (createWorkerCommit (createWorkerCommit initialState ia 101).1 ib 102).1
  | _, _ => initialState

/-- Claim C2, the code evaluated at the failing input — after two overlapping
`createWorker` calls, both workers `"A"` and `"B"` are registered and active
with the **same** port 3001, refuting "for every pair of distinct workers
present in the registry, their ports differ"; moreover `usedPorts` records
the doubly-assigned port once, so the first finalization releases it while
the other worker still uses it. -/
theorem createWorker_port_race_duplicate :
    (overlappingCreates.workers.map fun x => x.1) = ["A", "B"] ∧
    (overlappingCreates.workers.map fun x => x.2.info.port) = [3001, 3001] ∧
    ¬ (overlappingCreates.workers.map fun x => x.2.info.port).Nodup ∧
    overlappingCreates.usedPorts = [3001] :=
  ⟨by decide, by decide, by decide, by decide⟩

/-! ### C6 / C7: stopping -/

/-- Counterexample to C6 as stated: a second `stopWorker` call issued while
the worker is still in the `'stopping'` phase (the first call is suspended
in its grace wait, so the worker is still in the registry) does **not**
return `false` without side effects — it proceeds, re-sends the `shutdown`
message, and (once the subprocess exits) returns `true`, exactly like the
first call. -/
theorem stopWorker_overlapping_call_returns_true :
    (stopWorkerBegin stateA "w1").2.2 = true ∧
    ((findWorker (stopWorkerBegin stateA "w1").1 "w1").map fun w => w.info.status)
      = some WorkerStatus.stopping ∧
    (stopWorkerBegin (stopWorkerBegin stateA "w1").1 "w1").2.1
      = [Effect.send "w1" HostMsg.shutdown] ∧
    (stopWorkerBegin (stopWorkerBegin stateA "w1").1 "w1").2.2 = true ∧
    (stopWorkerFinish
        (handleWorkerExit (stopWorkerBegin (stopWorkerBegin stateA "w1").1 "w1").1
          "w1" (some 0) none).1
        "w1" true infoA).2.2 = true :=
  ⟨by decide, by decide, by decide, by decide, by decide⟩

/-- Embeds `findWorkerL_remove` said at the level of an explicitly built state. -/
lemma findWorker_mk_remove (ws : List (String × WorkerEntry)) (ports : List Nat)
    (wid : String) :
    findWorker { workers := removeWorkerL ws wid, usedPorts := ports } wid = none :=
  findWorkerL_remove ws wid

lemma stopWorkerRun_of_not_found {s : ManagerState} {wid : String} {g : Bool}
    {code : Option Int} {sig : Option String} (h : findWorker s wid = none) :
    stopWorkerRun s wid g code sig = (s, [], false) := by
  simp [stopWorkerRun, h]

/-- After a completed `stopWorker` run the worker is gone from the registry. -/
lemma findWorker_stopRun_self (s : ManagerState) (wid : String) (g : Bool)
    (code : Option Int) (sig : Option String) (w : WorkerEntry)
    (h : findWorker s wid = some w) :
    findWorker (stopWorkerRun s wid g code sig).1 wid = none := by
  cases g with
  | true =>
      simp only [stopWorkerRun, h, stopWorkerFinish]
      exact findWorker_cleanup_self _ wid
  | false =>
      simp only [stopWorkerRun, h, handleWorkerExit]
      exact findWorker_cleanup_self _ wid

/-- Claim C6, amended — for calls that do not overlap: a first `stopWorker`
call on a registered worker returns `true`, and a second call made after the
first has completed (the worker having been removed from the registry)
returns `false` without side effects: the state is unchanged and nothing is
sent, killed, emitted or resolved.  (A second call issued *while* the worker
is still stopping instead proceeds and returns `true`; see the
counterexample.) -/
theorem stopWorker_sequential_idempotent (s : ManagerState) (wid : String)
    (g g2 : Bool) (code code2 : Option Int) (sig sig2 : Option String)
    (w : WorkerEntry) (h : findWorker s wid = some w) :
    (stopWorkerRun s wid g code sig).2.2 = true ∧
    stopWorkerRun (stopWorkerRun s wid g code sig).1 wid g2 code2 sig2
      = ((stopWorkerRun s wid g code sig).1, [], false) := by
  refine ⟨?_, ?_⟩
  · cases g <;> simp [stopWorkerRun, h]
  · exact stopWorkerRun_of_not_found (findWorker_stopRun_self s wid g code sig w h)

/-- Witness for the amended C6: stopping `"w1"` (forced path), then calling
`stopWorker` again. -/
theorem stopWorker_sequential_idempotent_witness :
    (stopWorkerRun stateA "w1" false (some 0) none).2.2 = true ∧
    stopWorkerRun (stopWorkerRun stateA "w1" false (some 0) none).1 "w1" true none none
      = ((stopWorkerRun stateA "w1" false (some 0) none).1, [], false) :=
  stopWorker_sequential_idempotent stateA "w1" false true (some 0) none none none
    { info := infoA, pendingRequests := ["r1", "r2"] } (by decide)

/-- Recognizer for `worker:exit` emissions, used to count them. -/
def isExitEvent : Effect → Bool
  | .emitExit _ _ _ => true
  | _ => false

lemma filter_isExit_resolveMap (l : List String) :
    (l.map fun rid => Effect.resolveErr rid "Worker stopped").filter isExitEvent = [] := by
  induction l with
  | nil => rfl
  | cons a l ih => simp [isExitEvent, ih]

/-- Claim C7 — `stopWorkerRun` on a registered worker, in both scenarios: the
call returns `true`, the worker is marked, sent `shutdown`, and finalized as
`'stopped'` (the `worker:stopped` payload carries status `'stopped'`, the
registry entry is gone).  If the subprocess exits within the grace window
(`graceful = true`) the grace timer is cancelled and no `SIGKILL` is sent;
if the grace window expires first (`graceful = false`) the subprocess is
forcibly killed.  In both scenarios exactly one `worker:exit` event is
published. -/
theorem stopWorker_grace_and_forced_finalize (s : ManagerState) (wid : String)
    (g : Bool) (code : Option Int) (sig : Option String) (w : WorkerEntry)
    (h : findWorker s wid = some w) :
    (stopWorkerRun s wid g code sig).2.2 = true ∧
    findWorker (stopWorkerRun s wid g code sig).1 wid = none ∧
    Effect.send wid HostMsg.shutdown ∈ (stopWorkerRun s wid g code sig).2.1 ∧
    Effect.emitStopped { w.info with status := WorkerStatus.stopped }
      ∈ (stopWorkerRun s wid g code sig).2.1 ∧
    (g = true → Effect.clearGraceTimer wid ∈ (stopWorkerRun s wid g code sig).2.1 ∧
        Effect.kill wid ∉ (stopWorkerRun s wid g code sig).2.1) ∧
    (g = false → Effect.kill wid ∈ (stopWorkerRun s wid g code sig).2.1) ∧
    (stopWorkerRun s wid g code sig).2.1.filter isExitEvent
      = [Effect.emitExit wid code sig] := by
  have hs1 : findWorker (updateWorkerS s wid fun e =>
      { e with info := { e.info with status := WorkerStatus.stopping } }) wid
      = some { info := { w.info with status := WorkerStatus.stopping },
               pendingRequests := w.pendingRequests } := by
    rw [findWorker_updateS, h]; rfl
  refine ⟨?_, findWorker_stopRun_self s wid g code sig w h, ?_, ?_, ?_, ?_, ?_⟩
  · cases g <;> simp [stopWorkerRun, h]
  · cases g <;>
      simp [stopWorkerRun, h, handleWorkerExit, stopWorkerFinish, cleanupWorker, hs1,
        findWorker_mk_remove]
  · cases g <;>
      simp [stopWorkerRun, h, handleWorkerExit, stopWorkerFinish, cleanupWorker, hs1,
        findWorker_mk_remove]
  · rintro rfl
    constructor
    · simp [stopWorkerRun, h, handleWorkerExit, stopWorkerFinish, cleanupWorker, hs1,
        findWorker_mk_remove]
    · simp [stopWorkerRun, h, handleWorkerExit, stopWorkerFinish, cleanupWorker, hs1,
        findWorker_mk_remove]
  · rintro rfl
    simp [stopWorkerRun, h, handleWorkerExit, stopWorkerFinish, cleanupWorker, hs1,
      findWorker_mk_remove]
  · cases g <;>
      simp [stopWorkerRun, h, handleWorkerExit, stopWorkerFinish, cleanupWorker, hs1,
        findWorker_mk_remove, List.filter_append, filter_isExit_resolveMap, isExitEvent]

/-- Witness for C7 (forced-termination scenario on `"w1"`). -/
theorem stopWorker_grace_and_forced_finalize_witness :
    (stopWorkerRun stateA "w1" false (some 0) (some "SIGKILL")).2.2 = true ∧
    Effect.kill "w1" ∈ (stopWorkerRun stateA "w1" false (some 0) (some "SIGKILL")).2.1 ∧
    (stopWorkerRun stateA "w1" false (some 0) (some "SIGKILL")).2.1.filter isExitEvent
      = [Effect.emitExit "w1" (some 0) (some "SIGKILL")] := by
  have hc := stopWorker_grace_and_forced_finalize stateA "w1" false (some 0)
    (some "SIGKILL") { info := infoA, pendingRequests := ["r1", "r2"] } (by decide)
  exact ⟨hc.1, hc.2.2.2.2.2.1 rfl, hc.2.2.2.2.2.2⟩

/-! ### C8: worker-originated request handling -/

/-- A route without a `case` in the `switch` falls through to
`routeToSocketHandler`. -/
lemma dispatchRoute_unknown (env : HandlerEnv) (route : String) (data : Val)
    (h : route ∉ knownRoutes) :
    dispatchRoute env route data = .ok (routeToSocketHandler route data) := by
  simp only [knownRoutes, List.mem_cons, List.not_mem_nil, or_false, not_or] at h
  obtain ⟨h1, h2, h3, h4, h5, h6, h7, h8, h9, h10, h11, h12⟩ := h
  simp [dispatchRoute, h1, h2, h3, h4, h5, h6, h7, h8, h9, h10, h11, h12]

/-- Claim C8 — for every request originated by a registered worker: exactly one
response message is sent back for the given request id; a route with no
registered handler receives the explicit `'Ruta ... no implementada'`
failure response (never a silent success); and a handler exception is caught
and converted into a failure response carrying the error description — the
channel keeps operating (`handleWorkerRequest` returns normally in every
case). -/
theorem handleWorkerRequest_single_response (env : HandlerEnv) (s : ManagerState)
    (wid route : String) (data : Val) (rid : String) (now : Nat)
    (w : WorkerEntry) (h : findWorker s wid = some w) :
    (∃ ok d m, (handleWorkerRequest env s wid route data rid now).2
        = [Effect.send wid (HostMsg.response rid ok d m)]) ∧
    (route ∉ knownRoutes →
        (handleWorkerRequest env s wid route data rid now).2
          = [Effect.send wid (HostMsg.response rid false none
               (some ("Ruta " ++ route ++ " no implementada")))]) ∧
    (∀ msg, dispatchRoute env route data = .throws msg →
        (handleWorkerRequest env s wid route data rid now).2
          = [Effect.send wid (HostMsg.response rid false none (some msg))]) := by
  refine ⟨?_, ?_, ?_⟩
  · cases hd : dispatchRoute env route data with
    | ok resp =>
        exact ⟨resp.success, resp.data, resp.message, by simp [handleWorkerRequest, h, hd]⟩
    | throws msg =>
        exact ⟨false, none, some msg, by simp [handleWorkerRequest, h, hd]⟩
  · intro hr
    simp [handleWorkerRequest, h, dispatchRoute_unknown env route data hr,
      routeToSocketHandler]
  · intro msg hd
    simp [handleWorkerRequest, h, hd]

/-- Concrete handler table for the witnesses: every route answers except
`database:operation`, which throws. -/
def envPass : HandlerEnv :=
  { nodesList := fun _ => .ok { success := true, data := some (Val.str "nodes") },
    nodesGet := fun _ => .ok { success := true },
    workflowsGet := fun _ => .ok { success := true },
    systemHealth := fun _ => .ok { success := true },
    workerLog := fun _ => .ok { success := true },
    workerProgress := fun _ => .ok { success := true },
    workerMetrics := fun _ => .ok { success := true },
    databaseOperation := fun _ => .throws "db down",
    externalApi := fun _ => .ok { success := true },
    fileOperation := fun _ => .ok { success := true },
    credentialsGet := fun _ => .ok { success := true },
    environmentGet := fun _ => .ok { success := true } }

/-- Witness for C8: an unknown route gets the explicit not-implemented
failure, and a throwing handler gets a failure response with the error
description. -/
theorem handleWorkerRequest_single_response_witness :
    (handleWorkerRequest envPass stateA "w1" "not:aroute" Val.null "q1" 9).2
      = [Effect.send "w1" (HostMsg.response "q1" false none
           (some ("Ruta " ++ "not:aroute" ++ " no implementada")))] ∧
    (handleWorkerRequest envPass stateA "w1" "database:operation" Val.null "q2" 9).2
      = [Effect.send "w1" (HostMsg.response "q2" false none (some "db down"))] := by
  have h1 := handleWorkerRequest_single_response envPass stateA "w1" "not:aroute"
    Val.null "q1" 9 { info := infoA, pendingRequests := ["r1", "r2"] } (by decide)
  have h2 := handleWorkerRequest_single_response envPass stateA "w1" "database:operation"
    Val.null "q2" 9 { info := infoA, pendingRequests := ["r1", "r2"] } (by decide)
  exact ⟨h1.2.1 (by decide), h2.2.2 "db down" (by decide)⟩

/-! ### C4: request/response correlation -/

/-- A worker response message
`{type: 'response', requestId, success, data, message}`. -/
def respMsg (rid : String) (b : Bool) (v : Val) (msg : Option String) : WorkerMessage :=
  { type := "response", requestId := some rid, success := b, payload := v, message := msg }

/-- Claim C4 — for a `sendRequestToWorker` call on a running worker with a
fresh request id: the pending continuation is registered and the request
transmitted; the timeout default is 30 000 ms; a matching response fires the
continuation exactly once (resolving with the response payload on success,
rejecting with the carried message otherwise) and removes the pending entry,
reaching the same state `s2` that the timeout path (which rejects with the
`RequestTimeout` error `'Timeout en la solicitud al worker'`) reaches; and
once the entry is removed neither a second response with the same request id
nor a late timeout fires anything again. -/
theorem sendRequest_correlation_discipline (s : ManagerState) (wid route : String)
    (data : Val) (rid : String) (now now2 : Nat) (b : Bool) (v : Val)
    (msg : Option String) (env : HandlerEnv) (w : WorkerEntry)
    (hw : findWorker s wid = some w)
    (hrun : w.info.status = WorkerStatus.running)
    (hfresh : rid ∉ w.pendingRequests) :
    ∃ s1 s2,
      sendRequestToWorker s wid route data rid now
        = .ok (s1, [Effect.send wid (HostMsg.request route data rid)]) ∧
      ((findWorker s1 wid).map fun e => e.pendingRequests)
        = some (w.pendingRequests ++ [rid]) ∧
      requestTimeoutMs = 30000 ∧
      handleWorkerMessage env s1 wid (respMsg rid b v msg) now2
        = (s2, [if b then Effect.resolveOk rid v
                else Effect.resolveErr rid (msg.getD "Error en la solicitud al worker")]) ∧
      fireRequestTimeout s1 wid rid
        = (s2, [Effect.resolveErr rid "Timeout en la solicitud al worker"]) ∧
      ((findWorker s2 wid).map fun e => decide (rid ∈ e.pendingRequests)) = some false ∧
      handleWorkerMessage env s2 wid (respMsg rid b v msg) now2 = (s2, []) ∧
      fireRequestTimeout s2 wid rid = (s2, []) := by
  have hfw1 : findWorker (updateWorkerS s wid (fun e =>
      { e with pendingRequests := insertPending e.pendingRequests rid,
               info := { e.info with lastActivity := now } })) wid
      = some { info := { w.info with lastActivity := now },
               pendingRequests := w.pendingRequests ++ [rid] } := by
    rw [findWorker_updateS, hw]
    simp [insertPending, hfresh]
  have hfw2 : findWorker (updateWorkerS (updateWorkerS s wid (fun e =>
      { e with pendingRequests := insertPending e.pendingRequests rid,
               info := { e.info with lastActivity := now } })) wid (fun e =>
      { e with pendingRequests := removePending e.pendingRequests rid })) wid
      = some { info := { w.info with lastActivity := now },
               pendingRequests := removePending (w.pendingRequests ++ [rid]) rid } := by
    rw [findWorker_updateS, hfw1]; rfl
  refine ⟨updateWorkerS s wid (fun e =>
            { e with pendingRequests := insertPending e.pendingRequests rid,
                     info := { e.info with lastActivity := now } }),
          updateWorkerS (updateWorkerS s wid (fun e =>
            { e with pendingRequests := insertPending e.pendingRequests rid,
                     info := { e.info with lastActivity := now } })) wid (fun e =>
            { e with pendingRequests := removePending e.pendingRequests rid }),
          ?_, ?_, rfl, ?_, ?_, ?_, ?_, ?_⟩
  · simp [sendRequestToWorker, hw, hrun]
  · simp [hfw1]
  · simp [handleWorkerMessage, hfw1, respMsg, pendingCallbackRun]
  · simp [fireRequestTimeout, hfw1]
  · simp [hfw2, not_mem_removePending]
  · simp [handleWorkerMessage, hfw2, respMsg, not_mem_removePending]
  · simp [fireRequestTimeout, hfw2, not_mem_removePending]

/-- Witness for C4: a concrete send on the running worker `"w1"`, with the
matching response firing once and a duplicate response firing nothing. -/
theorem sendRequest_correlation_discipline_witness :
    ∃ s1 s2,
      sendRequestToWorker stateA "w1" "health" Val.null "q7" 11
        = .ok (s1, [Effect.send "w1" (HostMsg.request "health" Val.null "q7")]) ∧
      handleWorkerMessage envPass s1 "w1" (respMsg "q7" true (Val.str "ok") none) 12
        = (s2, [Effect.resolveOk "q7" (Val.str "ok")]) ∧
      handleWorkerMessage envPass s2 "w1" (respMsg "q7" true (Val.str "ok") none) 12
        = (s2, []) := by
  obtain ⟨s1, s2, h1, _h2, _h3, h4, _h5, _h6, h7, _h8⟩ :=
    sendRequest_correlation_discipline stateA "w1" "health" Val.null "q7" 11 12 true
      (Val.str "ok") none envPass { info := infoA, pendingRequests := ["r1", "r2"] }
      (by decide) (by decide) (by decide)
  exact ⟨s1, s2, h1, by simpa using h4, h7⟩

end HorizonOrchestrator
